import Mathlib

/-!
# Verification of the arxiv-compiler dispatch and worker layer

A shallow embedding of the core of the arXiv compiler service:
the domain model (`compiler/domain.py`), the dispatch and worker logic
(`compiler/compiler.py`), the request controllers
(`compiler/controllers.py`), route-level authorization
(`compiler/routes.py`), the object-store key layout
(`compiler/services/store/__init__.py`) and the source-client save logic
(`compiler/services/filemanager/__init__.py`).

Python strings are modelled as Lean `String`, `None`-able values as
`Option`, raised exceptions as `Except`, and bytes as `Nat` lists
(each entry < 256).
-/

namespace ArxivCompiler

/-- `Format` enum from `compiler/domain.py`: compilation formats. -/
inductive Format where
  | PDF
  | DVI
  | PS
deriving DecidableEq, Repr

/-- `Format.value`: the wire value of each enum member. -/
def Format.value : Format → String
  | .PDF => "pdf"
  | .DVI => "dvi"
  | .PS => "ps"

/-- `Format.ext` property: filename extension equals the value. -/
def Format.ext (f : Format) : String := f.value

/-- `Format.content_type` property from `compiler/domain.py`. -/
def Format.content_type : Format → String
  | .PDF => "application/pdf"
  | .DVI => "application/x-dvi"
  | .PS => "application/postscript"

/-- `Format(value)` enum lookup; `none` models the `ValueError`. -/
def Format.fromValue : String → Option Format
  | "pdf" => some .PDF
  | "dvi" => some .DVI
  | "ps" => some .PS
  | _ => none

/-- `Status` enum from `compiler/domain.py`. -/
inductive Status where
  | COMPLETED
  | IN_PROGRESS
  | FAILED
deriving DecidableEq, Repr

/-- `Status.value`. -/
def Status.value : Status → String
  | .COMPLETED => "completed"
  | .IN_PROGRESS => "in_progress"
  | .FAILED => "failed"

/-- `Status(value)` enum lookup; `none` models the `ValueError`. -/
def Status.fromValue : String → Option Status
  | "completed" => some .COMPLETED
  | "in_progress" => some .IN_PROGRESS
  | "failed" => some .FAILED
  | _ => none

/-- `Reason` enum from `compiler/domain.py`; `NONE` has value `None`. -/
inductive Reason where
  | AUTHORIZATION
  | MISSING
  | SOURCE_TYPE
  | CORRUPTED
  | STORAGE
  | CANCELLED
  | COMPILATION
  | NETWORK
  | DOCKER
  | NONE
deriving DecidableEq, Repr

/-- `Reason.value`: `Reason.NONE.value` is Python `None`. -/
def Reason.value : Reason → Option String
  | .AUTHORIZATION => some "auth_error"
  | .MISSING => some "missing_source"
  | .SOURCE_TYPE => some "invalid_source_type"
  | .CORRUPTED => some "corrupted_source"
  | .STORAGE => some "storage"
  | .CANCELLED => some "cancelled"
  | .COMPILATION => some "compilation_errors"
  | .NETWORK => some "network_error"
  | .DOCKER => some "docker"
  | .NONE => none

/-- `Reason(value)` enum lookup: `Reason(None)` is `Reason.NONE`;
an unknown string models the `ValueError`. -/
def Reason.fromValue : Option String → Option Reason
  | none => some .NONE
  | some "auth_error" => some .AUTHORIZATION
  | some "missing_source" => some .MISSING
  | some "invalid_source_type" => some .SOURCE_TYPE
  | some "corrupted_source" => some .CORRUPTED
  | some "storage" => some .STORAGE
  | some "cancelled" => some .CANCELLED
  | some "compilation_errors" => some .COMPILATION
  | some "network_error" => some .NETWORK
  | some "docker" => some .DOCKER
  | some _ => none

/-- `Task` named tuple from `compiler/domain.py` (field defaults as in
the source). -/
structure Task where
  status : Status
  source_id : Option String := none
  output_format : Option Format := none
  checksum : Option String := none
  task_id : Option String := none
  reason : Reason := .NONE
  description : String := ""
  size_bytes : Nat := 0
  owner : Option String := none
deriving DecidableEq, Repr

/-- `Task.is_failed` property. -/
def Task.is_failed (t : Task) : Bool := t.status = Status.FAILED

/-- The dict produced by `Task.to_dict` (all nine keys always present). -/
structure TaskDict where
  source_id : Option String
  output_format : Option String
  checksum : Option String
  task_id : Option String
  status : Option String
  reason : Option String
  description : String
  size_bytes : Nat
  owner : Option String
deriving DecidableEq, Repr

/-- `Task.to_dict` from `compiler/domain.py`.  `self.status` and
`self.reason` are enum members and hence always truthy, so the
`if ... else None` guards always take the value branch; for
`Reason.NONE` the value itself is `None`. -/
def Task.to_dict (t : Task) : TaskDict :=
  { source_id := t.source_id
    output_format := t.output_format.map Format.value
    checksum := t.checksum
    task_id := t.task_id
    status := some t.status.value
    reason := t.reason.value
    description := t.description
    size_bytes := t.size_bytes
    owner := t.owner }

/-- `Task.from_dict` from `compiler/domain.py`.  `Format(None)`,
`Status(None)` and unknown enum strings raise `ValueError`, modelled
by `none`. -/
def Task.from_dict (d : TaskDict) : Option Task := do
  let fmt ← match d.output_format with
    | none => none
    | some s => Format.fromValue s
  let st ← match d.status with
    | none => none
    | some s => Status.fromValue s
  let rsn ← Reason.fromValue d.reason
  some { status := st
         source_id := d.source_id
         output_format := some fmt
         checksum := d.checksum
         task_id := d.task_id
         reason := rsn
         description := d.description
         size_bytes := d.size_bytes
         owner := d.owner }

/-! ## Task ids and input validation -/

/-- `_get_task_id` from `compiler/compiler.py`:
`f"{src_id}/{chk}/{fmt.value}"`. -/
def _get_task_id (src_id chk : String) (fmt : Format) : String :=
  src_id ++ "/" ++ chk ++ "/" ++ fmt.value

/-- Membership of a character in Python's `string.ascii_letters`,
`string.digits` or `'.-_'`, as used by `_is_valid_source_id` in
`compiler/controllers.py`. -/
def sourceIdAllowed (c : Char) : Bool :=
  c.isAlpha || c.isDigit || c = '.' || c = '-' || c = '_'

/-- `_is_valid_source_id` from `compiler/controllers.py`:
every character of `source_id` is a letter, digit, or one of `.-_`. -/
def _is_valid_source_id (source_id : String) : Bool :=
  source_id.data.all sourceIdAllowed

/-- Membership of a code point in `urlsafe_base64_alphabet` from
`compiler/controllers.py` (`A-Z`, `a-z`, `0-9`, `-`, `_`, `=`). -/
def urlsafeBase64Member (n : Nat) : Bool :=
  (65 ≤ n && n ≤ 90) || (97 ≤ n && n ≤ 122) || (48 ≤ n && n ≤ 57) ||
    n = 45 || n = 95 || n = 61

/-- `is_urlsafe_base64` from `compiler/controllers.py`: every character
ordinal is in the URL-safe base64 alphabet. -/
def is_urlsafe_base64 (val : String) : Bool :=
  val.data.all (fun c => urlsafeBase64Member c.toNat)

/-- A concrete completed task used as a test vector. -/
def sampleTask : Task :=
  { status := .COMPLETED, source_id := some "54",
    output_format := some .PDF, checksum := some "a1b2c3d4=",
    task_id := some "54/a1b2c3d4=/pdf", reason := .NONE,
    description := "Success!", size_bytes := 4, owner := some "84843" }

/-! ## Base64 and UTF-8, as used by `does_checksum_match`
(`compiler/compiler.py`) and `_validate_checksum`
(`compiler/controllers.py`).

Python's `base64.b64decode(s)` first encodes the `str` argument as
ASCII (raising `ValueError` on non-ASCII input) and then calls
`binascii.a2b_base64` in non-strict mode, which discards characters
outside the standard alphabet and raises `binascii.Error` on a
dangling quad or bad padding. -/

/-- Value of a character in the standard base64 alphabet
(`A-Za-z0-9+/`); `none` for every other character. -/
def b64DigitStd (c : Char) : Option Nat :=
  let n := c.toNat
  if 65 ≤ n ∧ n ≤ 90 then some (n - 65)
  else if 97 ≤ n ∧ n ≤ 122 then some (n - 71)
  else if 48 ≤ n ∧ n ≤ 57 then some (n + 4)
  else if n = 43 then some 62
  else if n = 47 then some 63
  else none

/-- Exceptions out of `base64.b64decode`: `binascii.Error` (caught by
`does_checksum_match`) and `ValueError` from the ASCII pre-encoding
(not caught). -/
inductive B64Err where
  | binasciiError
  | valueError
deriving DecidableEq, Repr

/-- The `binascii.a2b_base64` non-strict loop: `quadPos` is the
position within the current 4-character quantum, `leftchar` the
pending bits, `pads` the running pad count.  Invalid characters are
discarded; a `=` with `quadPos ≥ 2` completing the quantum ends
decoding; a leftover `quadPos ≠ 0` at the end is an error. -/
def a2bBase64Loop : List Char → Nat → Nat → Nat → List Nat →
    Except B64Err (List Nat)
  | [], quadPos, _, _, acc =>
    if quadPos = 0 then .ok acc.reverse else .error .binasciiError
  | c :: rest, quadPos, leftchar, pads, acc =>
    if c = '=' then
      if 2 ≤ quadPos then
        if 4 ≤ quadPos + (pads + 1) then .ok acc.reverse
        else a2bBase64Loop rest quadPos leftchar (pads + 1) acc
      else a2bBase64Loop rest quadPos leftchar pads acc
    else
      match b64DigitStd c with
      | none => a2bBase64Loop rest quadPos leftchar pads acc
      | some d =>
        match quadPos with
        | 0 => a2bBase64Loop rest 1 d 0 acc
        | 1 => a2bBase64Loop rest 2 (d % 16)
            0 ((leftchar * 4 + d / 16) :: acc)
        | 2 => a2bBase64Loop rest 3 (d % 4)
            0 ((leftchar * 16 + d / 4) :: acc)
        | _ => a2bBase64Loop rest 0 0 0 ((leftchar * 64 + d) :: acc)

/-- `base64.b64decode` on a `str`: ASCII pre-encoding then the
non-strict `a2b_base64` loop. -/
def b64decodePy (s : String) : Except B64Err (List Nat) :=
  if s.data.all (fun c => c.toNat < 128) then a2bBase64Loop s.data 0 0 0 []
  else .error .valueError

/-- `base64.urlsafe_b64decode`: translate `-` to `+` and `_` to `/`,
then standard decoding.  (Used only to state the spec's reading of the
checksum test.) -/
def urlsafeB64decodePy (s : String) : Except B64Err (List Nat) :=
  b64decodePy (String.mk (s.data.map (fun c =>
    if c = '-' then '+' else if c = '_' then '/' else c)))

/-- UTF-8 encoding of a code point (`str.encode('utf-8')`). -/
def utf8EncodeChar (n : Nat) : List Nat :=
  if n < 128 then [n]
  else if n < 2048 then [192 + n / 64, 128 + n % 64]
  else if n < 65536 then
    [224 + n / 4096, 128 + (n / 64) % 64, 128 + n % 64]
  else [240 + n / 262144, 128 + (n / 4096) % 64, 128 + (n / 64) % 64,
    128 + n % 64]

/-- `str.encode('utf-8')` over the string's code points. -/
def utf8Encode (s : String) : List Nat :=
  s.data.flatMap (fun c => utf8EncodeChar c.toNat)

/-- Is a byte a UTF-8 continuation byte in the given inclusive range? -/
def contIn (lo hi b : Nat) : Bool := lo ≤ b && b ≤ hi

/-- Strict UTF-8 decoding (`bytes.decode('utf-8')`): rejects stray
continuation bytes, overlong forms, surrogates and code points above
`U+10FFFF`; `none` models `UnicodeDecodeError`. -/
def utf8Decode : List Nat → Option (List Char)
  | [] => some []
  | b :: rest =>
    if b < 128 then
      (utf8Decode rest).map (fun cs => Char.ofNat b :: cs)
    else if b ≤ 193 then none
    else if b ≤ 223 then
      match rest with
      | c1 :: rest2 =>
        if contIn 128 191 c1 then
          (utf8Decode rest2).map (fun cs =>
            Char.ofNat ((b - 192) * 64 + (c1 - 128)) :: cs)
        else none
      | [] => none
    else if b ≤ 239 then
      match rest with
      | c1 :: c2 :: rest3 =>
        let ok1 : Bool :=
          if b = 224 then contIn 160 191 c1
          else if b = 237 then contIn 128 159 c1
          else contIn 128 191 c1
        if ok1 && contIn 128 191 c2 then
          (utf8Decode rest3).map (fun cs =>
            Char.ofNat ((b - 224) * 4096 + (c1 - 128) * 64 + (c2 - 128))
              :: cs)
        else none
      | _ => none
    else if b ≤ 244 then
      match rest with
      | c1 :: c2 :: c3 :: rest4 =>
        let ok1 : Bool :=
          if b = 240 then contIn 144 191 c1
          else if b = 244 then contIn 128 143 c1
          else contIn 128 191 c1
        if ok1 && contIn 128 191 c2 && contIn 128 191 c3 then
          (utf8Decode rest4).map (fun cs =>
            Char.ofNat ((b - 240) * 262144 + (c1 - 128) * 4096
              + (c2 - 128) * 64 + (c3 - 128)) :: cs)
        else none
      | _ => none
    else none

/-- `SourcePackage` named tuple from `compiler/domain.py`. -/
structure SourcePackage where
  source_id : String
  path : String
  etag : String
deriving DecidableEq, Repr

/-- `does_checksum_match` from `compiler/compiler.py`.  The
`FILEMANAGER_VERIFY_CHECKSUM` config flag is the first argument.
`binascii.Error` and `UnicodeDecodeError` are caught and yield
`False`; the `ValueError` from a non-ASCII `expected` is not caught
and propagates (`Except.error`). -/
def does_checksum_match (verifyChecksum : Bool) (source : SourcePackage)
    (expected : String) : Except Unit Bool :=
  if verifyChecksum = false then .ok true
  else if source.etag = expected then .ok true
  else
    match b64decodePy expected with
    | .error .binasciiError => .ok false
    | .error .valueError => .error ()
    | .ok bytes =>
      match utf8Decode bytes with
      | none => .ok false
      | some chars =>
        if source.etag = String.mk chars then .ok true else .ok false

/-- The checksum test as the spec words it (claim C3): direct string
equality, or equality after URL-safe base64 decoding of the requested
checksum, with verification possibly disabled. -/
def checksumMatchSpec (verifyChecksum : Bool) (etag expected : String) :
    Bool :=
  if verifyChecksum = false then true
  else if etag = expected then true
  else
    match urlsafeB64decodePy expected with
    | .error _ => false
    | .ok bytes =>
      match utf8Decode bytes with
      | none => false
      | some chars => etag = String.mk chars

/-- The amended checksum test: standard base64 decoding with
non-alphabet characters discarded (what `base64.b64decode` actually
does), restricted to ASCII `expected`. -/
def checksumMatchStd (verifyChecksum : Bool) (etag expected : String) :
    Bool :=
  if verifyChecksum = false then true
  else if etag = expected then true
  else
    match b64decodePy expected with
    | .error _ => false
    | .ok bytes =>
      match utf8Decode bytes with
      | none => false
      | some chars => etag = String.mk chars

/-- A source package whose etag is the two-character string `c€`,
whose URL-safe base64 encoding `Y-KCrA==` contains a `-`. -/
def euroSource : SourcePackage :=
  { source_id := "54", path := "/tmp/src/54.tar.gz", etag := "c€" }

/-! ## The worker (`do_compile` in `compiler/compiler.py`)

External effects are supplied through a `WorkerEnv`: the outcome of the
source fetch, of the converter-availability probe, of the conversion,
and the success of each object-store PUT.  The worker's writes to the
object store are returned as an event list. -/

/-- Outcome of `FileManager.get_source_content` as observed by
`do_compile`: the exceptions it catches, any other exception, or a
retrieved `SourcePackage`. -/
inductive FetchOutcome where
  | requestUnauthorized
  | requestForbidden
  | connectionFailed
  | notFound
  | otherError
  | fetched (pkg : SourcePackage)
deriving DecidableEq, Repr

/-- Outcome of `Converter.is_available`: a boolean, or a `ClientError`
(which `do_compile` catches and then continues). -/
inductive AvailOutcome where
  | avail (b : Bool)
  | clientError
deriving DecidableEq, Repr

/-- Outcome of invoking the converter (`Converter.__call__`): the
`CorruptedSource` exception, a `RuntimeError`, or the returned pair
`(out, tex_log)` — the artifact path may be absent, the log path is
always produced. -/
inductive ConvertOutcome where
  | corruptedSource
  | runtimeError (msg : String)
  | converted (out : Option String) (log : String)
deriving DecidableEq, Repr

/-- An object-store write (`put_object` in
`compiler/services/store/__init__.py`). -/
inductive StoreEvent where
  | putArtifact (key : String)
  | putLog (key : String)
  | putStatus (key : String) (task : Task)
deriving DecidableEq, Repr

/-- Environment of one `do_compile` run. -/
structure WorkerEnv where
  verifyChecksum : Bool
  fetch : FetchOutcome
  avail : AvailOutcome
  convert : ConvertOutcome
  artifactPutOk : Bool
  logPutOk : Bool
  statusPutOk : Bool
  fileSize : String → Nat

/-- `StoreSession._key`: `f"{source_id}/{checksum}/{output_format.value}"`. -/
def storeKeyPrefix (src chk : String) (fmt : Format) : String :=
  src ++ "/" ++ chk ++ "/" ++ fmt.value

/-- Artifact key `f"{_key}/{source_id}.{ext}"` from `StoreSession.store`. -/
def artifactKey (src chk : String) (fmt : Format) : String :=
  storeKeyPrefix src chk fmt ++ "/" ++ src ++ "." ++ fmt.ext

/-- Log key `f"{_key}/{source_id}.{ext}.log"` from
`StoreSession.store_log`. -/
def logKey (src chk : String) (fmt : Format) : String :=
  artifactKey src chk fmt ++ ".log"

/-- Status key `f"{_key}/status.json"` from `StoreSession.set_status`. -/
def statusKey (src chk : String) (fmt : Format) : String :=
  storeKeyPrefix src chk fmt ++ "/status.json"

/-- The disposition triple `(status, reason, description)` threaded
through `do_compile`'s try block. -/
abbrev Disposition := Status × Reason × String

/-- The conversion stage of `do_compile`'s try block: invoke the
converter and classify the outcome.  Returns the disposition plus
`(out, log, size_bytes)` as they stand when the `finally` runs. -/
def convertStage (env : WorkerEnv) :
    Disposition × Option String × Option String × Nat :=
  match env.convert with
  | .corruptedSource =>
    ((.FAILED, .CORRUPTED, "Source package is corrupted"), none, none, 0)
  | .runtimeError m => ((.FAILED, .DOCKER, m), none, none, 0)
  | .converted out log =>
    match out with
    | none => ((.FAILED, .COMPILATION, "Failed"), none, some log, 0)
    | some o =>
      ((.COMPLETED, .NONE, "Success!"), some o, some log, env.fileSize o)

/-- The try block of `do_compile`: fetch the source, verify the
checksum, probe the converter, convert.  An uncaught exception lands in
the bare `except Exception` with whatever disposition was last set
(initially `(FAILED, NONE, "Unknown error")`). -/
def compileAttempt (env : WorkerEnv) (chk : String) :
    Disposition × Option String × Option String × Nat :=
  match env.fetch with
  | .requestUnauthorized | .requestForbidden =>
    ((.FAILED, .AUTHORIZATION,
      "There was a problem authorizing your request."), none, none, 0)
  | .connectionFailed =>
    ((.FAILED, .NETWORK,
      "There was a problem retrieving your source files."), none, none, 0)
  | .notFound =>
    ((.FAILED, .MISSING,
      "Could not retrieve a matching source package (not found)"),
      none, none, 0)
  | .otherError => ((.FAILED, .NONE, "Unknown error"), none, none, 0)
  | .fetched source =>
    match does_checksum_match env.verifyChecksum source chk with
    | .error _ =>
      ((.FAILED, .NONE, "Unknown error"), none, none, 0)
    | .ok false =>
      ((.FAILED, .MISSING,
        "Could not retrieve a matching source package: expected "
          ++ chk ++ ", got " ++ source.etag), none, none, 0)
    | .ok true =>
      match env.avail with
      | .avail false =>
        ((.FAILED, .DOCKER, "Converter is not available"), none, none, 0)
      | .avail true => convertStage env
      | .clientError => convertStage env

/-- The `Task` built in `do_compile`'s `finally` from the disposition. -/
def taskFromDisposition (d : Disposition) (src chk : String) (fmt : Format)
    (owner : Option String) (size : Nat) : Task :=
  { status := d.1, reason := d.2.1, description := d.2.2,
    source_id := some src, output_format := some fmt, checksum := some chk,
    task_id := some (_get_task_id src chk fmt), owner := owner,
    size_bytes := size }

/-- The `Task` substituted when storing raises
(`compiler/compiler.py`, the `except` of the store block). -/
def storageFailedTask (src chk : String) (fmt : Format)
    (owner : Option String) (size : Nat) : Task :=
  { status := .FAILED, reason := .STORAGE,
    description := "Failed to store result", source_id := some src,
    output_format := some fmt, checksum := some chk,
    task_id := some (_get_task_id src chk fmt), owner := owner,
    size_bytes := size }

/-- The store block of `do_compile`: `Store.store` (artifact PUT then
status PUT) when `out` is present, then `Store.store_log` (log PUT then
status PUT) when `log` is present; any raise replaces the task by the
`storage`-failed one.  Writes that succeeded before the raise
persist. -/
def storePhase (env : WorkerEnv) (task : Task) (src chk : String)
    (fmt : Format) (out log : Option String) : Task × List StoreEvent :=
  let akey := artifactKey src chk fmt
  let lkey := logKey src chk fmt
  let skey := statusKey src chk fmt
  let failed := storageFailedTask src chk fmt task.owner task.size_bytes
  let step1 : List StoreEvent × Bool :=
    match out with
    | none => ([], true)
    | some _ =>
      if env.artifactPutOk = false then ([], false)
      else if env.statusPutOk = false then ([.putArtifact akey], false)
      else ([.putArtifact akey, .putStatus skey task], true)
  if step1.2 = false then (failed, step1.1)
  else
    let step2 : List StoreEvent × Bool :=
      match log with
      | none => ([], true)
      | some _ =>
        if env.logPutOk = false then ([], false)
        else if env.statusPutOk = false then ([.putLog lkey], false)
        else ([.putLog lkey, .putStatus skey task], true)
    if step2.2 = false then (failed, step1.1 ++ step2.1)
    else (task, step1.1 ++ step2.1)

/-- `do_compile` from `compiler/compiler.py`: the try block, the task
built in the `finally`, then the store block.  Returns the final task
(serialized back to the result backend) together with the object-store
writes. -/
def do_compile (env : WorkerEnv) (src chk : String) (fmt : Format)
    (owner : Option String) : Task × List StoreEvent :=
  let r := compileAttempt env chk
  let task := taskFromDisposition r.1 src chk fmt owner r.2.2.2
  storePhase env task src chk fmt r.2.1 r.2.2.1

/-- A worker environment in which the source fetch is rejected with
401/403 and everything downstream would succeed. -/
def envAuthFail : WorkerEnv :=
  { verifyChecksum := true, fetch := .requestUnauthorized,
    avail := .avail true, convert := .converted none "log",
    artifactPutOk := true, logPutOk := true, statusPutOk := true,
    fileSize := fun _ => 0 }

/-! ## Dispatch (`start_compilation`, `get_task`, `_mark_sent` in
`compiler/compiler.py`) -/

/-- Result-backend state of one task id, with the payload the backend
holds for it (`result.info` / `result.result`).  `other` covers the
remaining celery states (`RECEIVED`, `REVOKED`, ...), for which
`get_task` assigns nothing to `_info`. -/
inductive CeleryState where
  | pending
  | sent (info : Option TaskDict)
  | started (info : Option TaskDict)
  | retry (info : Option TaskDict)
  | failure (info : Option TaskDict)
  | success (res : Option TaskDict)
  | other (name : String)
deriving DecidableEq, Repr

/-- Failures of `get_task`: the `NoSuchTask` it raises for `PENDING`,
the `UnboundLocalError` reached on any unhandled backend state
(`_info` is only annotated, never assigned, before
`if _info is not None`), and the `ValueError` of an enum lookup on a
malformed payload. -/
inductive GetTaskErr where
  | noSuchTask
  | unboundLocal
  | valueError
deriving DecidableEq, Repr

/-- The tail of `get_task` (`if _info is not None: ...` and the final
`Task(...)` construction). -/
def getTaskFinish (src chk : String) (fmt : Format) (stat : Status)
    (info : Option TaskDict) : Except GetTaskErr Task :=
  let task_id := _get_task_id src chk fmt
  match info with
  | none =>
    .ok { status := stat, source_id := some src,
          output_format := some fmt, checksum := some chk,
          task_id := some task_id, reason := .NONE, owner := none,
          size_bytes := 0, description := "" }
  | some d =>
    match Reason.fromValue d.reason with
    | none => .error .valueError
    | some r =>
      .ok { status := stat, source_id := some src,
            output_format := some fmt, checksum := some chk,
            task_id := some task_id, reason := r, owner := d.owner,
            size_bytes := d.size_bytes, description := d.description }

/-- `get_task` from `compiler/compiler.py`, as a function of the
result-backend state for the derived task id. -/
def get_task (state : CeleryState) (src chk : String) (fmt : Format) :
    Except GetTaskErr Task :=
  match state with
  | .pending => .error .noSuchTask
  | .sent info => getTaskFinish src chk fmt .IN_PROGRESS info
  | .started info => getTaskFinish src chk fmt .IN_PROGRESS info
  | .retry info => getTaskFinish src chk fmt .IN_PROGRESS info
  | .failure info => getTaskFinish src chk fmt .FAILED info
  | .success res =>
    match res with
    | none => getTaskFinish src chk fmt .COMPLETED none
    | some d =>
      match d.status with
      | none => .error .valueError
      | some sv =>
        match Status.fromValue sv with
        | none => .error .valueError
        | some st => getTaskFinish src chk fmt st (some d)
  | .other _ => .error .unboundLocal

/-- Queue, result backend and object store visible to dispatch. -/
structure DispatchState where
  backend : List (String × CeleryState)
  queue : List String
  objectStore : List (String × Task)
deriving DecidableEq, Repr

/-- First backend row for a task id. -/
def lookupBackend (rows : List (String × CeleryState)) (id : String) :
    Option CeleryState :=
  (rows.find? (fun r => r.1 == id)).map Prod.snd

/-- `start_compilation` from `compiler/compiler.py`.  On a successful
`apply_async` the `after_task_publish` signal handler `_mark_sent`
stores the result `None` with state `SENT` in the result backend; on
failure `TaskCreationFailed` is raised (`Except.error`) and nothing is
written anywhere.  The stamp label/link, token and owner ride along as
job kwargs and have no effect on dispatch state. -/
def start_compilation (enqueueOk : Bool) (st : DispatchState)
    (src chk : String) (_stamp_label _stamp_link : Option String)
    (fmt : Format) (_owner : Option String) :
    Except Unit String × DispatchState :=
  let task_id := _get_task_id src chk fmt
  if enqueueOk then
    (.ok task_id,
      { st with
        queue := st.queue ++ [task_id]
        backend := (task_id, .sent none)
          :: st.backend.filter (fun r => r.1 != task_id) })
  else (.error (), st)

/-- The empty dispatch state. -/
def emptyDispatch : DispatchState := ⟨[], [], []⟩

/-- An environment whose fetch fails with a connection error. -/
def envConnFail : WorkerEnv :=
  { envAuthFail with fetch := .connectionFailed }

/-- An environment whose fetch returns 404. -/
def envNotFound : WorkerEnv :=
  { envAuthFail with fetch := .notFound }

/-- An environment that fetches a package whose etag does not match the
requested checksum. -/
def envMismatch : WorkerEnv :=
  { envAuthFail with fetch := .fetched ⟨"54", "/tmp/s", "etagA"⟩ }

/-- A payload as produced by a failed worker run. -/
def failedPayload : TaskDict :=
  Task.to_dict (taskFromDisposition
    (.FAILED, .AUTHORIZATION, "There was a problem authorizing your request.")
    "54" "a1b2c3d4=" .PDF (some "84843") 0)

/-- An environment that compiles successfully: the converter produces
an artifact and a log, and every store PUT succeeds. -/
def envSuccess : WorkerEnv :=
  { verifyChecksum := false, fetch := .fetched ⟨"54", "/tmp/s", "e"⟩,
    avail := .avail true,
    convert := .converted (some "/tmp/s/tex_cache/54.pdf")
      "/tmp/s/tex_logs/autotex.log",
    artifactPutOk := true, logPutOk := true, statusPutOk := true,
    fileSize := fun _ => 4 }

/-- Like `envSuccess` but the artifact PUT raises. -/
def envStoreFail : WorkerEnv := { envSuccess with artifactPutOk := false }

/-- Like `envSuccess` but the log PUT raises, after the artifact has
been stored successfully. -/
def envLogFail : WorkerEnv := { envSuccess with logPutOk := false }

/-- A log-only outcome (compilation produced no artifact) in which the
status PUT of `store_log` raises. -/
def envLogOnlyStatusFail : WorkerEnv :=
  { envSuccess with
    convert := .converted none "/tmp/s/tex_logs/autotex.log"
    statusPutOk := false }

/-! ## Routes and controllers (`compiler/routes.py`,
`compiler/controllers.py`) -/

/-- The session's authorization data as seen by the injected
authorizer: `request.auth.is_authorized(scope, resource)` with the
scope fixed, and the authenticated user's id (as a string), if any. -/
structure AuthContext where
  hasScopeFor : Option String → Bool
  user : Option String

/-- `authorizer` from `compiler/routes.py`, with the scope already
applied: a task with falsy owner (`None` or `""`) is public; otherwise
the session must hold the qualified scope for the task's `task_id`, or
the authenticated user's id must equal the owner. -/
def authorizer (auth : AuthContext) (task : Task) : Bool :=
  match task.owner with
  | none => true
  | some o =>
    if o = "" then true
    else
      auth.hasScopeFor task.task_id
        || (match auth.user with
            | some uid => uid = o
            | none => false)

/-- HTTP errors raised by the controllers. -/
inductive HttpError where
  | badRequest
  | notFound
  | forbidden
  | internalServerError
deriving DecidableEq, Repr

/-- `_validate_source_id` from `compiler/controllers.py`. -/
def validate_source_id (source_id : String) : Except HttpError String :=
  if source_id = "" ∨ _is_valid_source_id source_id = false then
    .error .badRequest
  else .ok source_id

/-- Character of a 6-bit value in the URL-safe base64 alphabet. -/
def urlsafeB64Char (n : Nat) : Char :=
  if n < 26 then Char.ofNat (65 + n)
  else if n < 52 then Char.ofNat (97 + (n - 26))
  else if n < 62 then Char.ofNat (48 + (n - 52))
  else if n = 62 then '-'
  else '_'

/-- `base64.urlsafe_b64encode` over a byte list. -/
def urlsafeB64EncodeBytes : List Nat → List Char
  | [] => []
  | [a] => [urlsafeB64Char (a / 4), urlsafeB64Char (a % 4 * 16), '=', '=']
  | [a, b] =>
    [urlsafeB64Char (a / 4), urlsafeB64Char (a % 4 * 16 + b / 16),
      urlsafeB64Char (b % 16 * 4), '=']
  | a :: b :: d :: rest =>
    urlsafeB64Char (a / 4) :: urlsafeB64Char (a % 4 * 16 + b / 16)
      :: urlsafeB64Char (b % 16 * 4 + d / 64) :: urlsafeB64Char (d % 64)
      :: urlsafeB64EncodeBytes rest

/-- `urlsafe_b64encode(checksum.encode('utf-8')).decode('utf-8')`. -/
def urlsafeB64EncodeStr (s : String) : String :=
  String.mk (urlsafeB64EncodeBytes (utf8Encode s))

/-- `_validate_checksum` from `compiler/controllers.py`: an invalid
checksum is rejected with 400, except that when checksum verification
is disabled a non-empty invalid value is URL-safe base64 encoded and
used as an opaque identifier. -/
def validate_checksum (verify : Bool) (checksum : String) :
    Except HttpError String :=
  if checksum = "" ∨ is_urlsafe_base64 checksum = false then
    if checksum ≠ "" ∧ verify = false then
      .ok (urlsafeB64EncodeStr checksum)
    else .error .badRequest
  else .ok checksum

/-- `_validate_output_format` from `compiler/controllers.py`. -/
def validate_output_format (output_format : String) :
    Except HttpError Format :=
  match Format.fromValue output_format with
  | some f => .ok f
  | none => .error .badRequest

/-- Uppercase hex digit. -/
def hexDigit (n : Nat) : Char :=
  if n < 10 then Char.ofNat (48 + n) else Char.ofNat (55 + n)

/-- Percent-quoting as `url_for` applies to path segments: unreserved
characters (and the path-safe `/` and `:`) pass through, everything
else becomes `%XX` per UTF-8 byte (so `=` becomes `%3D`). -/
def urlQuote (s : String) : String :=
  String.mk (s.data.flatMap (fun c =>
    if c.isAlpha || c.isDigit || c = '_' || c = '.' || c = '-' || c = '~'
        || c = '/' || c = ':' then [c]
    else (utf8EncodeChar c.toNat).flatMap (fun b =>
      ['%', hexDigit (b / 16), hexDigit (b % 16)])))

/-- `url_for('api.get_status', ...)`: the blueprint route
`/<source_id>/<checksum>/<output_format>` with each value quoted. -/
def urlForStatus (source_id checksum fmtValue : String) : String :=
  "/" ++ urlQuote source_id ++ "/" ++ urlQuote checksum ++ "/"
    ++ urlQuote fmtValue

/-- A controller response: HTTP code plus the headers/body pieces the
claims are about. -/
structure ControllerResponse where
  code : Nat
  location : Option String := none
  owner : Option String := none
  body : Option TaskDict := none
  etag : Option String := none
  contentType : Option String := none
  filename : Option String := none
deriving DecidableEq, Repr

/-- `_redirect_to_status` from `compiler/controllers.py`. -/
def _redirect_to_status (source_id checksum : String)
    (output_format : Format) (code : Nat) : ControllerResponse :=
  { code := code,
    location := some (urlForStatus source_id checksum
      output_format.value) }

/-- Environment of one `compile` controller call: the config flag, the
`compiler.get_task` outcome (`Except.error` = `NoSuchTask`), the
injected authorization predicate, the `fm.owner` outcome
(`Except.error` = any exception), and whether enqueueing succeeds. -/
structure CompileEnv where
  verifyChecksum : Bool
  taskLookup : Except Unit Task
  is_authorized : Task → Bool
  ownerFetch : Except Unit (Option String)
  enqueueOk : Bool

/-- `_get_owner` from `compiler/controllers.py`: the inner
`except Exception` converts any failure of `fm.owner` into
`NotFound('No such source')` (so the outer 403 handler is dead
code). -/
def _get_owner (r : Except Unit (Option String)) :
    Except HttpError (Option String) :=
  match r with
  | .ok o => .ok o
  | .error _ => .error .notFound

/-- The dispatch tail of the `compile` controller: fetch the owner,
start compilation (500 on `TaskCreationFailed`), answer 202. -/
def compileStart (env : CompileEnv) (source_id checksum : String)
    (product_format : Format) : Except HttpError ControllerResponse :=
  match _get_owner env.ownerFetch with
  | .error e => .error e
  | .ok _owner =>
    if env.enqueueOk = false then .error .internalServerError
    else .ok (_redirect_to_status source_id checksum product_format 202)

/-- The `compile` controller from `compiler/controllers.py`: validate,
then (unless `force`) look up the task — found and authorized gives a
303 redirect to the status URL, found and unauthorized gives 403,
absent falls through to dispatch. -/
def compileController (env : CompileEnv) (source_id_raw checksum_raw :
    String) (output_format_raw : Option String) (force : Bool) :
    Except HttpError ControllerResponse :=
  match validate_source_id source_id_raw with
  | .error e => .error e
  | .ok source_id =>
    match validate_checksum env.verifyChecksum checksum_raw with
    | .error e => .error e
    | .ok checksum =>
      match validate_output_format
          (output_format_raw.getD Format.PDF.value) with
      | .error e => .error e
      | .ok product_format =>
        if force = false then
          match env.taskLookup with
          | .ok task_state =>
            if env.is_authorized task_state = false then
              .error .forbidden
            else
              .ok (_redirect_to_status source_id checksum
                product_format 303)
          | .error _ =>
            compileStart env source_id checksum product_format
        else compileStart env source_id checksum product_format

/-- Environment of one read-endpoint call: config flag, task lookup
outcome, injected authorization predicate, and the store retrieval
outcome (`Except.error` = `DoesNotExist`). -/
structure ReadEnv where
  verifyChecksum : Bool
  taskLookup : Except Unit Task
  is_authorized : Task → Bool
  retrieved : Except Unit (Option String)

/-- `get_status` from `compiler/controllers.py`. -/
def getStatusController (env : ReadEnv)
    (source_id_raw checksum_raw output_format_raw : String) :
    Except HttpError ControllerResponse :=
  match validate_source_id source_id_raw with
  | .error e => .error e
  | .ok _source_id =>
    match validate_checksum env.verifyChecksum checksum_raw with
    | .error e => .error e
    | .ok _checksum =>
      match validate_output_format output_format_raw with
      | .error e => .error e
      | .ok _product_format =>
        match env.taskLookup with
        | .error _ => .error .notFound
        | .ok task_state =>
          if env.is_authorized task_state = false then .error .forbidden
          else
            .ok { code := 200, body := some task_state.to_dict,
                  owner := task_state.owner }

/-- `get_product` from `compiler/controllers.py`.  `retrieved` carries
the stored object's etag. -/
def getProductController (env : ReadEnv)
    (source_id_raw checksum_raw output_format_raw : String) :
    Except HttpError ControllerResponse :=
  match validate_source_id source_id_raw with
  | .error e => .error e
  | .ok source_id =>
    match validate_checksum env.verifyChecksum checksum_raw with
    | .error e => .error e
    | .ok _checksum =>
      match validate_output_format output_format_raw with
      | .error e => .error e
      | .ok product_format =>
        match env.taskLookup with
        | .error _ => .error .notFound
        | .ok task_state =>
          if env.is_authorized task_state = false then .error .forbidden
          else
            match env.retrieved with
            | .error _ => .error .notFound
            | .ok etag =>
              .ok { code := 200, owner := task_state.owner,
                    etag := etag,
                    contentType := some product_format.content_type,
                    filename := some (source_id ++ "."
                      ++ product_format.ext) }

/-- `get_log` from `compiler/controllers.py`. -/
def getLogController (env : ReadEnv)
    (source_id_raw checksum_raw output_format_raw : String) :
    Except HttpError ControllerResponse :=
  match validate_source_id source_id_raw with
  | .error e => .error e
  | .ok source_id =>
    match validate_checksum env.verifyChecksum checksum_raw with
    | .error e => .error e
    | .ok _checksum =>
      match validate_output_format output_format_raw with
      | .error e => .error e
      | .ok product_format =>
        match env.taskLookup with
        | .error _ => .error .notFound
        | .ok task_state =>
          if env.is_authorized task_state = false then .error .forbidden
          else
            match env.retrieved with
            | .error _ => .error .notFound
            | .ok etag =>
              .ok { code := 200, owner := task_state.owner,
                    etag := etag,
                    contentType := some "text/plain",
                    filename := some (source_id ++ "."
                      ++ product_format.ext) }

/-! ## Source client save logic
(`FileManagementService._save_content` and `get_source_content` in
`compiler/services/filemanager/__init__.py`) -/

/-- The suffix of the haystack after the first occurrence of the
needle, if any. -/
def afterFirst (needle : List Char) : List Char → Option (List Char)
  | [] => if needle = [] then some [] else none
  | c :: rest =>
    if needle.isPrefixOf (c :: rest) then
      some ((c :: rest).drop needle.length)
    else afterFirst needle rest

/-- `re.search('filename=(.+)', header)` for a single-line header:
everything after the first `filename=`, provided it is non-empty. -/
def filenameParam (header : String) : Option String :=
  match afterFirst "filename=".data header.data with
  | some rest => if rest.isEmpty then none else some (String.mk rest)
  | none => none

/-- Python `str.strip('"')`: remove every leading and trailing `"`. -/
def stripQuotes (s : String) : String :=
  String.mk
    (((s.data.dropWhile (fun c => c = '"')).reverse.dropWhile
      (fun c => c = '"')).reverse)

/-- `str.startswith`, evaluated on the underlying character lists. -/
def strStarts (s pre : String) : Bool := pre.data.isPrefixOf s.data

/-- `str.endswith`, evaluated on the underlying character lists. -/
def strEnds (s suf : String) : Bool :=
  suf.data.reverse.isPrefixOf s.data.reverse

/-- `os.path.join` for two POSIX components. -/
def osJoin (a b : String) : String :=
  if strStarts b "/" then b
  else if a.data = [] ∨ strEnds a "/" then a ++ b
  else a ++ "/" ++ b

/-- `FileManagementService._save_content`: derive the destination
filename from the `content-disposition` header (else
`{source_id}.tar.gz`), join it onto the save directory, and write the
response body there.  The `filename.rstrip('.gz')` under the
`https://arxiv.org/src` branch discards its result and has no effect.
Returns the saved path together with the list of file paths written to
disk. -/
def _save_content (_path source_id : String)
    (contentDisposition : Option String) (source_dir : String) :
    String × List String :=
  let filename :=
    match contentDisposition with
    | some h =>
      match filenameParam h with
      | some m => stripQuotes m
      | none => source_id ++ ".tar.gz"
    | none => source_id ++ ".tar.gz"
  let source_file_path := osJoin source_dir filename
  (source_file_path, [source_file_path])

/-- `str.split('/')` on a character list. -/
def splitSlash : List Char → List Char → List (List Char)
  | [], cur => [cur.reverse]
  | c :: rest, cur =>
    if c = '/' then cur.reverse :: splitSlash rest []
    else splitSlash rest (c :: cur)

/-- `'/'.join(...)` on character lists. -/
def joinSlash : List (List Char) → List Char
  | [] => []
  | [x] => x
  | x :: xs => x ++ '/' :: joinSlash xs

/-- `os.path.normpath` for POSIX paths, used to state the spec's
"after normalization, escapes `save_to`" condition. -/
def normpathPosix (p : String) : String :=
  if p.data = [] then "."
  else
    let initialSlashes : Nat :=
      if strStarts p "/" then
        if strStarts p "//" ∧ ¬ strStarts p "///" then 2 else 1
      else 0
    let comps := splitSlash p.data []
    let newComps := comps.foldl (fun acc comp =>
      if comp = [] ∨ comp = ['.'] then acc
      else if comp ≠ ['.', '.'] ∨ (initialSlashes = 0 ∧ acc = [])
          ∨ acc.getLast? = some ['.', '.'] then
        acc ++ [comp]
      else if acc ≠ [] then acc.dropLast
      else acc) []
    let path := List.replicate initialSlashes '/' ++ joinSlash newComps
    if path = [] then "." else String.mk path

/-- A normalized path lies outside the directory `root`. -/
def escapesDir (p root : String) : Bool :=
  ¬ (normpathPosix p = root
    ∨ strStarts (normpathPosix p) (root ++ "/"))

/-- The session of spec scenario S7: user id `123`, no task-scoped
capability. -/
def strangerAuth : AuthContext :=
  { hasScopeFor := fun _ => false, user := some "123" }

/-- A read environment whose lookup finds `sampleTask` (owner `84843`)
and whose injected predicate is the stranger's authorizer. -/
def strangerReadEnv : ReadEnv :=
  { verifyChecksum := true, taskLookup := .ok sampleTask,
    is_authorized := authorizer strangerAuth, retrieved := .ok none }

/-- The first call's environment: no existing task, owner fetched,
enqueue succeeds. -/
def firstCompileEnv : CompileEnv :=
  { verifyChecksum := true, taskLookup := .error (),
    is_authorized := fun _ => true, ownerFetch := .ok (some "84843"),
    enqueueOk := true }

/-- The second call's environment: the task now exists. -/
def secondCompileEnv : CompileEnv :=
  { firstCompileEnv with taskLookup := .ok sampleTask }

/-! ### C1: the task-id map is injective on validated inputs -/

theorem slash_not_sourceIdAllowed : sourceIdAllowed '/' = false := by decide

theorem slash_not_urlsafe : urlsafeBase64Member ('/').toNat = false := by
  decide

theorem format_value_no_slash (f : Format) : '/' ∉ f.value.data := by
  cases f <;> decide

theorem format_value_injective {f g : Format}
    (h : f.value = g.value) : f = g := by
  cases f <;> cases g <;> first | rfl | (exfalso; exact absurd h (by decide))

/-- Splitting on a separator that occurs in neither left part is
unambiguous. -/
theorem sep_split_unique {sep : Char} :
    ∀ (a a' b b' : List Char), sep ∉ a → sep ∉ a' →
      a ++ sep :: b = a' ++ sep :: b' → a = a' ∧ b = b' := by
  intro a
  induction a with
  | nil =>
    intro a' b b' _ ha' h
    cases a' with
    | nil => simpa using h
    | cons x xs =>
      simp only [List.nil_append, List.cons_append, List.cons.injEq] at h
      refine absurd ?_ ha'
      rw [← h.1]
      exact List.mem_cons_self sep xs
  | cons x xs ih =>
    intro a' b b' ha ha' h
    cases a' with
    | nil =>
      simp only [List.cons_append, List.nil_append, List.cons.injEq] at h
      refine absurd ?_ ha
      rw [h.1]
      exact List.mem_cons_self sep xs
    | cons y ys =>
      simp only [List.cons_append, List.cons.injEq] at h
      obtain ⟨hxy, htail⟩ := h
      have := ih ys b b' (fun hm => ha (List.mem_cons_of_mem x hm))
        (fun hm => ha' (hxy ▸ List.mem_cons_of_mem y hm)) htail
      exact ⟨by rw [hxy, this.1], this.2⟩

theorem string_data_append (s t : String) :
    (s ++ t).data = s.data ++ t.data := rfl

/-- C1.  `_get_task_id` produces `"{source_id}/{chk}/{fmt.value}"`, and on
validated inputs (source id over letters/digits/`.-_`, checksum over the
URL-safe base64 alphabet, neither containing `/`) the map from
`(source_id, chk, fmt)` to task id is injective. -/
theorem task_id_format_and_injective :
    (∀ (s c : String) (f : Format),
      _get_task_id s c f = s ++ "/" ++ c ++ "/" ++ f.value) ∧
    (∀ (s c s' c' : String) (f f' : Format),
      _is_valid_source_id s = true → is_urlsafe_base64 c = true →
      _is_valid_source_id s' = true → is_urlsafe_base64 c' = true →
      _get_task_id s c f = _get_task_id s' c' f' →
      s = s' ∧ c = c' ∧ f = f') := by
  constructor
  · intro s c f; rfl
  · intro s c s' c' f f' hs hc hs' hc' h
    have hsd : '/' ∉ s.data := fun hm =>
      absurd ((List.all_eq_true.mp hs) _ hm) (by decide)
    have hsd' : '/' ∉ s'.data := fun hm =>
      absurd ((List.all_eq_true.mp hs') _ hm) (by decide)
    have hcd : '/' ∉ c.data := fun hm =>
      absurd ((List.all_eq_true.mp hc) _ hm) (by decide)
    have hcd' : '/' ∉ c'.data := fun hm =>
      absurd ((List.all_eq_true.mp hc') _ hm) (by decide)
    have hdata : s.data ++ '/' :: (c.data ++ '/' :: f.value.data)
        = s'.data ++ '/' :: (c'.data ++ '/' :: f'.value.data) := by
      have : (_get_task_id s c f).data = (_get_task_id s' c' f').data := by
        rw [h]
      simpa [_get_task_id, string_data_append, List.append_assoc] using this
    obtain ⟨h1, h2⟩ := sep_split_unique s.data s'.data _ _ hsd hsd' hdata
    obtain ⟨h3, h4⟩ := sep_split_unique c.data c'.data _ _ hcd hcd' h2
    refine ⟨?_, ?_, ?_⟩
    · exact String.ext h1
    · exact String.ext h3
    · exact format_value_injective (by cases f <;> cases f' <;>
        first | rfl | (exfalso; revert h4; decide))

/-- C1 witness: the theorem applied at concrete validated inputs. -/
theorem task_id_format_and_injective_witness :
    ("54" ++ "/" ++ "a1b2c3d4=" ++ "/" ++ "pdf"
      = _get_task_id "54" "a1b2c3d4=" Format.PDF) ∧
    ("54" = "54" ∧ "a1b2c3d4=" = "a1b2c3d4=" ∧ Format.PDF = Format.PDF) :=
  ⟨(task_id_format_and_injective.1 "54" "a1b2c3d4=" Format.PDF).symm,
    task_id_format_and_injective.2 "54" "a1b2c3d4=" "54" "a1b2c3d4="
      Format.PDF Format.PDF (by decide) (by decide) (by decide) (by decide)
      rfl⟩

/-! ### C3: the checksum test -/

theorem a2bBase64Loop_no_valueError (cs : List Char) :
    ∀ qp lc pads acc,
      a2bBase64Loop cs qp lc pads acc ≠ .error .valueError := by
  induction cs with
  | nil =>
    intro qp lc pads acc
    unfold a2bBase64Loop
    split <;> simp
  | cons c rest ih =>
    intro qp lc pads acc
    unfold a2bBase64Loop
    by_cases hc : c = '='
    · simp only [hc, if_true]
      split
      · split
        · simp
        · exact ih _ _ _ _
      · exact ih _ _ _ _
    · simp only [hc, if_false]
      cases b64DigitStd c with
      | none => exact ih _ _ _ _
      | some d =>
        simp only
        match qp with
        | 0 => exact ih _ _ _ _
        | 1 => exact ih _ _ _ _
        | 2 => exact ih _ _ _ _
        | n + 3 => exact ih _ _ _ _

theorem b64decodePy_ascii_no_valueError (s : String)
    (h : s.data.all (fun c => c.toNat < 128) = true) :
    b64decodePy s ≠ .error .valueError := by
  unfold b64decodePy
  rw [h]
  simpa using a2bBase64Loop_no_valueError s.data 0 0 0 []

/-- C3 counterexample.  At `etag = "c€"` and
`expected = "Y-KCrA=="` (the URL-safe base64 encoding of the UTF-8
bytes of `"c€"`), the code returns `False` — `b64decode` is the
*standard* decoder and discards the `-` — while the claim's predicate
(equality after URL-safe base64 decoding) is `True`.  Additionally,
at the non-ASCII `expected = "é"` the function propagates a
`ValueError` instead of returning `False`. -/
theorem does_checksum_match_counterexample :
    does_checksum_match true euroSource "Y-KCrA==" = .ok false
    ∧ checksumMatchSpec true euroSource.etag "Y-KCrA==" = true
    ∧ does_checksum_match true euroSource "é" = .error () := by
  exact ⟨rfl, by decide, rfl⟩

/-- C3 amended.  `does_checksum_match` returns `True` iff verification
is disabled, or the etag equals `expected`, or the etag equals the
UTF-8 decoding of the *standard* base64 decoding of `expected` (with
non-alphabet characters, including `-` and `_`, discarded); for ASCII
`expected` that is not valid base64 or does not decode as UTF-8 it
returns `False` rather than raising, while a non-ASCII `expected`
escapes as an uncaught `ValueError`. -/
theorem does_checksum_match_characterization (v : Bool)
    (src : SourcePackage) (expected : String) :
    (expected.data.all (fun c => c.toNat < 128) = true →
      does_checksum_match v src expected
        = .ok (checksumMatchStd v src.etag expected)) ∧
    (expected.data.all (fun c => c.toNat < 128) = false → v = true →
      src.etag ≠ expected →
      does_checksum_match v src expected = .error ()) := by
  constructor
  · intro hascii
    by_cases hv : v = false
    · simp [does_checksum_match, checksumMatchStd, hv]
    by_cases he : src.etag = expected
    · simp [does_checksum_match, checksumMatchStd, hv, he]
    rcases hb : b64decodePy expected with e | bytes
    · cases e with
      | binasciiError =>
        simp [does_checksum_match, checksumMatchStd, hv, he, hb]
      | valueError =>
        exact absurd hb (b64decodePy_ascii_no_valueError expected hascii)
    · rcases hu : utf8Decode bytes with _ | chars
      · simp [does_checksum_match, checksumMatchStd, hv, he, hb, hu]
      · by_cases hm : src.etag = String.mk chars
        · simp [does_checksum_match, checksumMatchStd, hv, he, hb, hu, hm]
        · simp [does_checksum_match, checksumMatchStd, hv, he, hb, hu, hm]
  · intro hnascii hv hne
    have hb : b64decodePy expected = .error .valueError := by
      unfold b64decodePy
      rw [hnascii]
      simp
    simp [does_checksum_match, hv, hne, hb]

/-- C3 amended witness: the characterization applied at concrete
inputs — an ASCII expected checksum that decodes to the etag, and a
non-ASCII expected checksum that raises. -/
theorem does_checksum_match_characterization_witness :
    does_checksum_match true ⟨"54", "/tmp/s", "abc"⟩ "YWJj"
      = .ok (checksumMatchStd true "abc" "YWJj")
    ∧ does_checksum_match true ⟨"54", "/tmp/s", "abc"⟩ "é" = .error () :=
  ⟨(does_checksum_match_characterization true ⟨"54", "/tmp/s", "abc"⟩
      "YWJj").1 (by decide),
    (does_checksum_match_characterization true ⟨"54", "/tmp/s", "abc"⟩
      "é").2 (by decide) (by decide) (by decide)⟩

/-! ### C10: serialization roundtrip -/

/-- C10.  For every `Task` whose `output_format` is not `None`,
`Task.from_dict (t.to_dict)` succeeds and returns `t` unchanged:
serialization to the dict representation and decoding back is the
identity. -/
theorem task_dict_roundtrip (t : Task) (h : t.output_format ≠ none) :
    Task.from_dict t.to_dict = some t := by
  obtain ⟨st, sid, fmt?, chk, tid, rsn, desc, sz, own⟩ := t
  cases fmt? with
  | none => exact absurd rfl h
  | some f =>
    cases f <;> cases st <;> cases rsn <;> rfl

/-- C10 witness: the theorem applied to a concrete task. -/
theorem task_dict_roundtrip_witness :
    Task.from_dict (Task.to_dict sampleTask) = some sampleTask :=
  task_dict_roundtrip sampleTask (by simp [sampleTask])

/-! ### C2: fetch failures map to single failure reasons -/

theorem do_compile_eq (env : WorkerEnv) (src chk : String) (fmt : Format)
    (owner : Option String) :
    do_compile env src chk fmt owner
      = storePhase env
          (taskFromDisposition (compileAttempt env chk).1 src chk fmt owner
            (compileAttempt env chk).2.2.2)
          src chk fmt (compileAttempt env chk).2.1
          (compileAttempt env chk).2.2.1 := rfl

/-- C2.  In `do_compile`, each source-fetch failure yields exactly one
failure reason on the returned task: `RequestUnauthorized` or
`RequestForbidden` gives `failed`/`auth_error` with description
"There was a problem authorizing your request.", `ConnectionFailed`
gives `network_error`, `NotFound` gives `missing_source`, and a
retrieved package failing the checksum test gives `missing_source`. -/
theorem do_compile_fetch_failure_reasons (env : WorkerEnv)
    (src chk : String) (fmt : Format) (owner : Option String) :
    ((env.fetch = .requestUnauthorized ∨ env.fetch = .requestForbidden) →
      (do_compile env src chk fmt owner).1.status = .FAILED
      ∧ (do_compile env src chk fmt owner).1.reason = .AUTHORIZATION
      ∧ (do_compile env src chk fmt owner).1.description
          = "There was a problem authorizing your request.")
    ∧ (env.fetch = .connectionFailed →
      (do_compile env src chk fmt owner).1.status = .FAILED
      ∧ (do_compile env src chk fmt owner).1.reason = .NETWORK)
    ∧ (env.fetch = .notFound →
      (do_compile env src chk fmt owner).1.status = .FAILED
      ∧ (do_compile env src chk fmt owner).1.reason = .MISSING)
    ∧ (∀ pkg, env.fetch = .fetched pkg →
      does_checksum_match env.verifyChecksum pkg chk = .ok false →
      (do_compile env src chk fmt owner).1.status = .FAILED
      ∧ (do_compile env src chk fmt owner).1.reason = .MISSING) := by
  obtain ⟨vc, f, av, cv, a, l, s, fs⟩ := env
  refine ⟨?_, ?_, ?_, ?_⟩
  · rintro (h | h) <;> (subst h; exact ⟨rfl, rfl, rfl⟩)
  · intro h; subst h; exact ⟨rfl, rfl⟩
  · intro h; subst h; exact ⟨rfl, rfl⟩
  · intro pkg h hm
    subst h
    rw [do_compile_eq]
    simp only [compileAttempt] at hm ⊢
    rw [hm]
    exact ⟨rfl, rfl⟩

/-- C2 witness: the theorem applied at a concrete environment for each
failure kind. -/
theorem do_compile_fetch_failure_reasons_witness :
    (do_compile envAuthFail "54" "a1b2c3d4=" .PDF (some "84843")).1.reason
      = .AUTHORIZATION
    ∧ (do_compile envConnFail "54" "a1b2c3d4=" .PDF
        (some "84843")).1.reason = .NETWORK
    ∧ (do_compile envNotFound "54" "a1b2c3d4=" .PDF
        (some "84843")).1.reason = .MISSING
    ∧ (do_compile envMismatch "54" "etagB" .PDF
        (some "84843")).1.reason = .MISSING :=
  ⟨((do_compile_fetch_failure_reasons envAuthFail "54" "a1b2c3d4=" .PDF
      (some "84843")).1 (Or.inl rfl)).2.1,
    ((do_compile_fetch_failure_reasons envConnFail "54" "a1b2c3d4=" .PDF
      (some "84843")).2.1 rfl).2,
    ((do_compile_fetch_failure_reasons envNotFound "54" "a1b2c3d4=" .PDF
      (some "84843")).2.2.1 rfl).2,
    ((do_compile_fetch_failure_reasons envMismatch "54" "etagB" .PDF
      (some "84843")).2.2.2 ⟨"54", "/tmp/s", "etagA"⟩ rfl rfl).2⟩

/-! ### C6: `get_task` state mapping -/

/-- C6 counterexample.  For a backend state outside
{PENDING, SENT, STARTED, RETRY, FAILURE, SUCCESS} — e.g. celery's
`RECEIVED` — `get_task` does not return a well-formed Task: `_info`
was never assigned and the function dies with `UnboundLocalError`. -/
theorem get_task_other_state_counterexample :
    get_task (.other "RECEIVED") "54" "a1b2c3d4=" .PDF
      = .error .unboundLocal
    ∧ ¬ ∃ t, get_task (.other "RECEIVED") "54" "a1b2c3d4=" .PDF
      = .ok t := by
  refine ⟨rfl, ?_⟩
  rintro ⟨t, ht⟩
  rw [show get_task (.other "RECEIVED") "54" "a1b2c3d4=" .PDF
    = .error .unboundLocal from rfl] at ht
  exact Except.noConfusion ht

/-- C6 amended.  `get_task` maps the backend state of the derived task
id as follows: `PENDING` raises `NoSuchTask`; any task returned for
`SENT`, `STARTED` or `RETRY` has status `in_progress`; any task
returned for `FAILURE` has status `failed`; for `SUCCESS` the task is
decoded from the result payload (status, reason, owner, size_bytes,
description); for every other backend state the call raises
(`UnboundLocalError`) instead of returning a Task. -/
theorem get_task_state_mapping (src chk : String) (fmt : Format) :
    (get_task .pending src chk fmt = .error .noSuchTask)
    ∧ (∀ i t, (get_task (.sent i) src chk fmt = .ok t
        ∨ get_task (.started i) src chk fmt = .ok t
        ∨ get_task (.retry i) src chk fmt = .ok t) →
      t.status = .IN_PROGRESS)
    ∧ (∀ i t, get_task (.failure i) src chk fmt = .ok t →
      t.status = .FAILED)
    ∧ (∀ (d : TaskDict) (sv : String) (st : Status) (r : Reason),
      d.status = some sv → Status.fromValue sv = some st →
      Reason.fromValue d.reason = some r →
      get_task (.success (some d)) src chk fmt
        = .ok { status := st, source_id := some src,
                output_format := some fmt, checksum := some chk,
                task_id := some (_get_task_id src chk fmt), reason := r,
                owner := d.owner, size_bytes := d.size_bytes,
                description := d.description })
    ∧ (∀ name, get_task (.other name) src chk fmt
        = .error .unboundLocal) := by
  refine ⟨rfl, ?_, ?_, ?_, fun _ => rfl⟩
  · rintro i t (ht | ht | ht) <;>
    · rcases i with _ | d
      · simp only [get_task, getTaskFinish] at ht
        cases ht
        rfl
      · simp only [get_task, getTaskFinish] at ht
        rcases hr : Reason.fromValue d.reason with _ | r <;> rw [hr] at ht
        · exact Except.noConfusion ht
        · cases ht
          rfl
  · intro i t ht
    rcases i with _ | d
    · simp only [get_task, getTaskFinish] at ht
      cases ht
      rfl
    · simp only [get_task, getTaskFinish] at ht
      rcases hr : Reason.fromValue d.reason with _ | r <;> rw [hr] at ht
      · exact Except.noConfusion ht
      · cases ht
        rfl
  · intro d sv st r hsv hst hr
    simp only [get_task, getTaskFinish, hsv, hst, hr]

/-- C6 witness: the mapping applied at concrete backend states,
including a `SUCCESS` payload decoded back field by field. -/
theorem get_task_state_mapping_witness :
    get_task .pending "54" "a1b2c3d4=" .PDF = .error .noSuchTask
    ∧ (∀ t, get_task (.sent none) "54" "a1b2c3d4=" .PDF = .ok t →
        t.status = .IN_PROGRESS)
    ∧ get_task (.success (some failedPayload)) "54" "a1b2c3d4=" .PDF
      = .ok { status := .FAILED, source_id := some "54",
              output_format := some .PDF, checksum := some "a1b2c3d4=",
              task_id := some (_get_task_id "54" "a1b2c3d4=" .PDF),
              reason := .AUTHORIZATION, owner := some "84843",
              size_bytes := 0,
              description :=
                "There was a problem authorizing your request." } :=
  ⟨(get_task_state_mapping "54" "a1b2c3d4=" .PDF).1,
    fun t ht => (get_task_state_mapping "54" "a1b2c3d4=" .PDF).2.1 none t
      (Or.inl ht),
    (get_task_state_mapping "54" "a1b2c3d4=" .PDF).2.2.2.1 failedPayload
      "failed" .FAILED .AUTHORIZATION rfl rfl rfl⟩

/-! ### C5: `start_compilation` -/

/-- C5 counterexample.  A successful `start_compilation` on a clean
system returns the deterministic task id but writes nothing to the
object store: the only record making the task visible is the `SENT`
row `_mark_sent` puts in the queue's result backend. -/
theorem start_compilation_counterexample :
    (start_compilation true emptyDispatch "54" "a1b2c3d4=" none none .PDF
      (some "84843")).1 = .ok "54/a1b2c3d4=/pdf"
    ∧ (start_compilation true emptyDispatch "54" "a1b2c3d4=" none none
      .PDF (some "84843")).2.objectStore = []
    ∧ ¬ ∃ t, ("54/a1b2c3d4=/pdf", t)
      ∈ (start_compilation true emptyDispatch "54" "a1b2c3d4=" none none
        .PDF (some "84843")).2.objectStore := by
  refine ⟨rfl, rfl, ?_⟩
  rintro ⟨t, ht⟩
  rw [show (start_compilation true emptyDispatch "54" "a1b2c3d4=" none
    none .PDF (some "84843")).2.objectStore = [] from rfl] at ht
  exact absurd ht (List.not_mem_nil _)

/-- C5 amended.  `start_compilation` raises `TaskCreationFailed` when
enqueueing fails, leaving every piece of state untouched; on success it
returns the deterministic task id, leaves the object store untouched,
and the `after_task_publish` handler writes a `SENT` row (payload
`None`) for that task id to the queue result backend — which is what
makes a concurrent `get_task` return an `in_progress` Task before the
worker picks the job up. -/
theorem start_compilation_behaviour (ok : Bool) (st : DispatchState)
    (src chk : String) (sl sli : Option String) (fmt : Format)
    (owner : Option String) :
    (ok = false →
      start_compilation ok st src chk sl sli fmt owner = (.error (), st))
    ∧ (ok = true →
      (start_compilation ok st src chk sl sli fmt owner).1
        = .ok (_get_task_id src chk fmt)
      ∧ lookupBackend
          (start_compilation ok st src chk sl sli fmt owner).2.backend
          (_get_task_id src chk fmt) = some (.sent none)
      ∧ (start_compilation ok st src chk sl sli fmt owner).2.objectStore
        = st.objectStore
      ∧ get_task (.sent none) src chk fmt
        = .ok { status := .IN_PROGRESS, source_id := some src,
                output_format := some fmt, checksum := some chk,
                task_id := some (_get_task_id src chk fmt) }) := by
  constructor
  · intro h
    subst h
    rfl
  · intro h
    subst h
    refine ⟨rfl, ?_, rfl, rfl⟩
    simp [start_compilation, lookupBackend, List.find?]

/-- C5 amended witness: the theorem applied on the empty state, in both
the failing-enqueue and successful-enqueue cases. -/
theorem start_compilation_behaviour_witness :
    start_compilation false emptyDispatch "54" "a1b2c3d4=" none none .PDF
      (some "84843") = (.error (), emptyDispatch)
    ∧ lookupBackend (start_compilation true emptyDispatch "54"
        "a1b2c3d4=" none none .PDF (some "84843")).2.backend
        (_get_task_id "54" "a1b2c3d4=" .PDF) = some (.sent none) :=
  ⟨(start_compilation_behaviour false emptyDispatch "54" "a1b2c3d4="
      none none .PDF (some "84843")).1 rfl,
    ((start_compilation_behaviour true emptyDispatch "54" "a1b2c3d4="
      none none .PDF (some "84843")).2 rfl).2.1⟩

/-! ### C4: the storing step -/

/-- C4 counterexample.  In the auth-failure outcome (no artifact, no
log) `do_compile` performs no object-store write at all — in
particular no final status record is written, contrary to the claim
that one is written in every outcome. -/
theorem do_compile_no_status_counterexample :
    (do_compile envAuthFail "54" "a1b2c3d4=" .PDF (some "84843")).2 = []
    ∧ ¬ ∃ t, StoreEvent.putStatus (statusKey "54" "a1b2c3d4=" .PDF) t
        ∈ (do_compile envAuthFail "54" "a1b2c3d4=" .PDF
          (some "84843")).2 := by
  have h : (do_compile envAuthFail "54" "a1b2c3d4=" .PDF
      (some "84843")).2 = [] := rfl
  refine ⟨h, ?_⟩
  rintro ⟨t, ht⟩
  rw [h] at ht
  exact absurd ht (List.not_mem_nil _)

/-- C4 amended.  The artifact is written when present and the log is
written when present; a status record is written only as part of
storing an artifact or a log (`Store.store` / `Store.store_log` each
end with `set_status`), so in an outcome with neither, nothing at all
is written to the object store; and if any store operation raises —
the artifact PUT, the log PUT (also after a successful artifact
store), or either status PUT (also in the log-only outcome) — the
returned task is `failed`/`storage` with description
"Failed to store result". -/
theorem do_compile_store_behaviour (env : WorkerEnv) (src chk : String)
    (fmt : Format) (owner : Option String) :
    (∀ o, (compileAttempt env chk).2.1 = some o →
      env.artifactPutOk = true → env.logPutOk = true →
      env.statusPutOk = true →
      StoreEvent.putArtifact (artifactKey src chk fmt)
          ∈ (do_compile env src chk fmt owner).2
      ∧ StoreEvent.putStatus (statusKey src chk fmt)
          (taskFromDisposition (compileAttempt env chk).1 src chk fmt owner
            (compileAttempt env chk).2.2.2)
          ∈ (do_compile env src chk fmt owner).2)
    ∧ (∀ lg, (compileAttempt env chk).2.2.1 = some lg →
      env.artifactPutOk = true → env.logPutOk = true →
      env.statusPutOk = true →
      StoreEvent.putLog (logKey src chk fmt)
          ∈ (do_compile env src chk fmt owner).2
      ∧ StoreEvent.putStatus (statusKey src chk fmt)
          (taskFromDisposition (compileAttempt env chk).1 src chk fmt owner
            (compileAttempt env chk).2.2.2)
          ∈ (do_compile env src chk fmt owner).2)
    ∧ ((compileAttempt env chk).2.1 = none →
      (compileAttempt env chk).2.2.1 = none →
      (do_compile env src chk fmt owner).2 = [])
    ∧ ((((compileAttempt env chk).2.1.isSome = true
        ∧ (env.artifactPutOk = false ∨ env.statusPutOk = false))
      ∨ ((compileAttempt env chk).2.2.1.isSome = true
        ∧ (env.logPutOk = false ∨ env.statusPutOk = false))) →
      (do_compile env src chk fmt owner).1
        = storageFailedTask src chk fmt owner
          (compileAttempt env chk).2.2.2)
    ∧ (env.artifactPutOk = true → env.logPutOk = true →
      env.statusPutOk = true →
      (do_compile env src chk fmt owner).1
        = taskFromDisposition (compileAttempt env chk).1 src chk fmt owner
          (compileAttempt env chk).2.2.2) := by
  rw [do_compile_eq]
  rcases hq : compileAttempt env chk with ⟨d, out, lg?, sz⟩
  refine ⟨?_, ?_, ?_, ?_, ?_⟩
  · rintro o rfl ha hl hs
    cases lg? <;> simp [storePhase, ha, hl, hs, taskFromDisposition]
  · rintro lg hlg ha hl hs
    subst hlg
    cases out <;> simp [storePhase, ha, hl, hs, taskFromDisposition]
  · rintro rfl rfl
    simp [storePhase]
  · rintro (⟨ho, hfl⟩ | ⟨hl, hfl⟩)
    · cases out with
      | none => simp at ho
      | some o =>
        rcases hfl with hf | hf
        · simp [storePhase, hf, taskFromDisposition, storageFailedTask]
        · cases hA : env.artifactPutOk <;>
            simp [storePhase, hA, hf, taskFromDisposition,
              storageFailedTask]
    · cases lg? with
      | none => simp at hl
      | some lg =>
        rcases hfl with hf | hf
        · cases out with
          | none =>
            simp [storePhase, hf, taskFromDisposition, storageFailedTask]
          | some o =>
            cases hA : env.artifactPutOk
            · simp [storePhase, hA, taskFromDisposition,
                storageFailedTask]
            · cases hS : env.statusPutOk <;>
                simp [storePhase, hA, hS, hf, taskFromDisposition,
                  storageFailedTask]
        · cases out with
          | none =>
            cases hL : env.logPutOk <;>
              simp [storePhase, hL, hf, taskFromDisposition,
                storageFailedTask]
          | some o =>
            cases hA : env.artifactPutOk <;>
              simp [storePhase, hA, hf, taskFromDisposition,
                storageFailedTask]
  · intro ha hl hs
    cases out <;> cases lg? <;>
      simp [storePhase, ha, hl, hs, taskFromDisposition]

/-- C4 amended witness: on a successful compile the artifact, log and
status records are all written; when the artifact PUT raises, when the
log PUT raises after a successful artifact store, and when the status
PUT raises in the log-only outcome, the returned task is the
`storage`-failed one. -/
theorem do_compile_store_behaviour_witness :
    StoreEvent.putArtifact (artifactKey "54" "e" .PDF)
      ∈ (do_compile envSuccess "54" "e" .PDF (some "84843")).2
    ∧ StoreEvent.putLog (logKey "54" "e" .PDF)
      ∈ (do_compile envSuccess "54" "e" .PDF (some "84843")).2
    ∧ (do_compile envAuthFail "54" "e" .PDF (some "84843")).2 = []
    ∧ (do_compile envStoreFail "54" "e" .PDF (some "84843")).1
      = storageFailedTask "54" "e" .PDF (some "84843") 4
    ∧ (do_compile envLogFail "54" "e" .PDF (some "84843")).1
      = storageFailedTask "54" "e" .PDF (some "84843") 4
    ∧ (do_compile envLogOnlyStatusFail "54" "e" .PDF (some "84843")).1
      = storageFailedTask "54" "e" .PDF (some "84843") 0 :=
  ⟨((do_compile_store_behaviour envSuccess "54" "e" .PDF
      (some "84843")).1 "/tmp/s/tex_cache/54.pdf" rfl rfl rfl rfl).1,
    ((do_compile_store_behaviour envSuccess "54" "e" .PDF
      (some "84843")).2.1 "/tmp/s/tex_logs/autotex.log" rfl rfl rfl
      rfl).1,
    (do_compile_store_behaviour envAuthFail "54" "e" .PDF
      (some "84843")).2.2.1 rfl rfl,
    (do_compile_store_behaviour envStoreFail "54" "e" .PDF
      (some "84843")).2.2.2.1 (Or.inl ⟨rfl, Or.inl rfl⟩),
    (do_compile_store_behaviour envLogFail "54" "e" .PDF
      (some "84843")).2.2.2.1 (Or.inr ⟨rfl, Or.inl rfl⟩),
    (do_compile_store_behaviour envLogOnlyStatusFail "54" "e" .PDF
      (some "84843")).2.2.2.1 (Or.inr ⟨rfl, Or.inr rfl⟩)⟩

/-! ### C7: the saved filename and path safety -/

/-- C7, evaluated at the failing input.  The filename is taken from the
`content-disposition` header when present and is `{source_id}.tar.gz`
otherwise — but for the header the package's own test suite uses
(`filename=../whereDoesThisGetWritten.txt`), `_save_content` writes the
file to a path that, after normalization, escapes the save directory:
nothing rejects the traversal. -/
theorem save_content_escape_evaluation :
    (_save_content "/54/content" "54"
      (some "filename=../whereDoesThisGetWritten.txt")
      "/tmp/workspace/src123").2
      = ["/tmp/workspace/src123/../whereDoesThisGetWritten.txt"]
    ∧ normpathPosix "/tmp/workspace/src123/../whereDoesThisGetWritten.txt"
      = "/tmp/workspace/whereDoesThisGetWritten.txt"
    ∧ escapesDir "/tmp/workspace/src123/../whereDoesThisGetWritten.txt"
      "/tmp/workspace/src123" = true
    ∧ (_save_content "/54/content" "54" (some "filename=\"foo.tar.gz\"")
      "/tmp/ws").1 = "/tmp/ws/foo.tar.gz"
    ∧ (_save_content "/54/content" "54" none "/tmp/ws").1
      = "/tmp/ws/54.tar.gz" := by
  exact ⟨rfl, by decide, by decide, rfl, rfl⟩

/-! ### C8: authorization -/

/-- C8.  The injected authorizer returns `True` for every task with
empty or absent owner; for a non-empty owner it returns `True` iff the
session holds the qualified scope for the task's `task_id` or the
user's id equals the owner; and each of the three read endpoints
answers 403 whenever the injected predicate returns `False` on the
looked-up task. -/
theorem authorizer_characterization :
    (∀ (auth : AuthContext) (task : Task),
      (task.owner = none ∨ task.owner = some "") →
      authorizer auth task = true)
    ∧ (∀ (auth : AuthContext) (task : Task) (o : String),
      task.owner = some o → o ≠ "" →
      (authorizer auth task = true ↔
        auth.hasScopeFor task.task_id = true
        ∨ ∃ uid, auth.user = some uid ∧ uid = o))
    ∧ (∀ (env : ReadEnv) (auth : AuthContext) (sid chk fmtv : String)
        (f : Format) (t : Task),
      sid ≠ "" → _is_valid_source_id sid = true →
      chk ≠ "" → is_urlsafe_base64 chk = true →
      Format.fromValue fmtv = some f →
      env.taskLookup = .ok t →
      env.is_authorized = authorizer auth →
      authorizer auth t = false →
      getStatusController env sid chk fmtv = .error .forbidden
      ∧ getProductController env sid chk fmtv = .error .forbidden
      ∧ getLogController env sid chk fmtv = .error .forbidden) := by
  refine ⟨?_, ?_, ?_⟩
  · rintro auth task (h | h) <;> simp [authorizer, h]
  · intro auth task o ho hne
    simp only [authorizer, ho]
    rw [if_neg hne]
    cases hu : auth.user with
    | none => simp
    | some uid => simp [decide_eq_true_eq]
  · intro env auth sid chk fmtv f t hs hsv hc hcv hf hl hia haf
    refine ⟨?_, ?_, ?_⟩ <;>
      simp [getStatusController, getProductController, getLogController,
        validate_source_id, validate_checksum, validate_output_format,
        hs, hsv, hc, hcv, hf, hl, hia, haf]

/-- C8 witness: scenario S7 — owner `84843`, caller `123` without the
task-scoped capability — gets 403 from all three read endpoints, while
an ownerless task is public. -/
theorem authorizer_characterization_witness :
    authorizer strangerAuth { status := .COMPLETED } = true
    ∧ getStatusController strangerReadEnv "54" "a1b2c3d4=" "pdf"
      = .error .forbidden
    ∧ getProductController strangerReadEnv "54" "a1b2c3d4=" "pdf"
      = .error .forbidden
    ∧ getLogController strangerReadEnv "54" "a1b2c3d4=" "pdf"
      = .error .forbidden :=
  ⟨authorizer_characterization.1 strangerAuth { status := .COMPLETED }
    (Or.inl rfl),
    (authorizer_characterization.2.2 strangerReadEnv strangerAuth "54"
      "a1b2c3d4=" "pdf" .PDF sampleTask (by decide) (by decide)
      (by decide) (by decide) rfl rfl rfl (by decide)).1,
    (authorizer_characterization.2.2 strangerReadEnv strangerAuth "54"
      "a1b2c3d4=" "pdf" .PDF sampleTask (by decide) (by decide)
      (by decide) (by decide) rfl rfl rfl (by decide)).2.1,
    (authorizer_characterization.2.2 strangerReadEnv strangerAuth "54"
      "a1b2c3d4=" "pdf" .PDF sampleTask (by decide) (by decide)
      (by decide) (by decide) rfl rfl rfl (by decide)).2.2⟩

/-! ### C9: duplicate `compile` requests redirect to one location -/

/-- C9.  On a validated triple, a first `compile` call that finds no
task and enqueues successfully answers 202, and a later call that finds
the task (without `force`) with an authorized caller answers 303 — and
both `Location` headers are the same status URL, derived
deterministically from the triple. -/
theorem compile_redirects_to_same_location
    (env1 env2 : CompileEnv) (sid chk fmtv : String) (f : Format)
    (t : Task) (o : Option String)
    (hs : sid ≠ "") (hsv : _is_valid_source_id sid = true)
    (hc : chk ≠ "") (hcv : is_urlsafe_base64 chk = true)
    (hf : Format.fromValue fmtv = some f)
    (h1 : env1.taskLookup = .error ()) (ho : env1.ownerFetch = .ok o)
    (he : env1.enqueueOk = true)
    (h2 : env2.taskLookup = .ok t) (ha : env2.is_authorized t = true) :
    compileController env1 sid chk (some fmtv) false
      = .ok { code := 202,
              location := some (urlForStatus sid chk f.value) }
    ∧ compileController env2 sid chk (some fmtv) false
      = .ok { code := 303,
              location := some (urlForStatus sid chk f.value) } := by
  constructor
  · simp [compileController, validate_source_id, validate_checksum,
      validate_output_format, hs, hsv, hc, hcv, hf, h1, compileStart,
      _get_owner, ho, he, _redirect_to_status]
  · simp [compileController, validate_source_id, validate_checksum,
      validate_output_format, hs, hsv, hc, hcv, hf, h2, ha,
      _redirect_to_status]

/-- C9 witness: the theorem at the triple of spec scenario S1 — both
locations are `/54/a1b2c3d4%3D/pdf`. -/
theorem compile_redirects_to_same_location_witness :
    compileController firstCompileEnv "54" "a1b2c3d4=" (some "pdf") false
      = .ok { code := 202, location := some "/54/a1b2c3d4%3D/pdf" }
    ∧ compileController secondCompileEnv "54" "a1b2c3d4=" (some "pdf")
      false = .ok { code := 303, location := some "/54/a1b2c3d4%3D/pdf" }
    := by
  have h := compile_redirects_to_same_location firstCompileEnv
    secondCompileEnv "54" "a1b2c3d4=" "pdf" .PDF sampleTask
    (some "84843") (by decide) (by decide) (by decide) (by decide) rfl
    rfl rfl rfl rfl rfl
  rw [show urlForStatus "54" "a1b2c3d4=" Format.PDF.value
    = "/54/a1b2c3d4%3D/pdf" by decide] at h
  exact h

end ArxivCompiler
